import Mathlib

/-!
Shallow embedding of `tools/ocr/process_messages_ocr.py`: a PDF-to-text
extraction pipeline that rasterizes a document into page images, sends each
page to a vision inference service with bounded retry, and appends the
per-page results to a single output artifact.

The service call (`model.generate_content`) is modelled as a function from
the attempt number to a `CallResult`; the filesystem is modelled by passing
the pre-existing artifact content (`Option String`) in and the resulting
artifact content out. Observable effects (opening the page source,
materializing the page list, each service invocation) are recorded in an
event trace; retry delays are recorded in the page outcome.
-/

namespace MessagesOCR

/-- Result of one `model.generate_content` call: either a response carrying
an optional content-block reason and the extracted text, or a raised
exception whose string form (`str(e)`) is recorded. -/
inductive CallResult where
  | ok (blockReason : Option String) (text : String)
  | err (e : String)
deriving DecidableEq

/-- Python `needle in hay` restricted to the case where `hay` starts with
`needle` (list-of-characters form). -/
def startsWithList : List Char → List Char → Bool
  | [], _ => true
  | _ :: _, [] => false
  | n :: ns, h :: hs => n == h && startsWithList ns hs

/-- Python substring containment `needle in hay` on lists of characters. -/
def hasSubList (needle : List Char) : List Char → Bool
  | [] => needle.isEmpty
  | c :: hs => startsWithList needle (c :: hs) || hasSubList needle hs

/-- Python substring containment `needle in hay` on strings. -/
def strContains (hay needle : String) : Bool :=
  hasSubList needle.data hay.data

/-- Declarative substring containment: `hay` decomposes around `needle`. -/
def SpecContains (hay needle : String) : Prop :=
  ∃ pre post, hay.data = pre ++ needle.data ++ post

/-- Classification from line 71 of the source:
`"429" in str(e) or "Resource exhausted" in str(e)`. -/
def isRateLimit (e : String) : Bool :=
  strContains e "429" || strContains e "Resource exhausted"

/-- Retry budget: `max_retries = 3` (line 55). -/
def max_retries : Nat := 3

/-- Base backoff: `base_delay = 5` seconds (line 56). -/
def base_delay : Nat := 5

/-- Backoff delay chosen after a failed attempt (lines 70-73):
`delay = base_delay * (attempt + 1)`, overridden to a flat 30 seconds when
the error is classified as a rate limit. -/
def delayFor (attempt : Nat) (e : String) : Nat :=
  if isRateLimit e then 30 else base_delay * (attempt + 1)

/-- Fallback marker returned when all retries are exhausted (line 78). -/
def fallbackMarker (page_num : Nat) (e : String) : String :=
  "<!-- Error processing page " ++ toString page_num ++ ": " ++ e ++ " -->"

/-- Observable outcome of `process_page_vision` on one page: how many
service invocations happened, which delays were slept between attempts,
whether a content-block warning was printed, the returned string, and
whether that string is the exhausted-retries fallback marker. -/
structure PageOutcome where
  calls : Nat
  sleeps : List Nat
  warned : Bool
  result : String
  isFallback : Bool
deriving DecidableEq

/-- Loop body of `process_page_vision` (lines 58-78): `attempt` is the
current 0-based attempt index and `fuel` the number of loop iterations
remaining (`max_retries - attempt`). On a response, the text is returned
(after printing a block warning when `prompt_feedback.block_reason` is
set); on an exception, if further attempts remain the chosen delay is
slept and the loop continues, otherwise the fallback marker is returned. -/
def attemptsFrom (service : Nat → CallResult) (page_num : Nat) :
    Nat → Nat → PageOutcome
  | _, 0 => { calls := 0, sleeps := [], warned := false, result := "", isFallback := false }
  | attempt, fuel + 1 =>
    match service attempt with
    | CallResult.ok blockReason text =>
      { calls := 1, sleeps := [], warned := blockReason.isSome,
        result := text, isFallback := false }
    | CallResult.err e =>
      if fuel = 0 then
        { calls := 1, sleeps := [], warned := false,
          result := fallbackMarker page_num e, isFallback := true }
      else
        let rest := attemptsFrom service page_num (attempt + 1) fuel
        { calls := rest.calls + 1, sleeps := delayFor attempt e :: rest.sleeps,
          warned := rest.warned, result := rest.result, isFallback := rest.isFallback }

/-- `process_page_vision(image, page_num)` (lines 28-78), with the service
behaviour for this page's image abstracted as `service : attempt ↦ result`. -/
def process_page_vision (service : Nat → CallResult) (page_num : Nat) : PageOutcome :=
  attemptsFrom service page_num 0 max_retries

/-- Observable pipeline events, in order: `sourceOpen` records that
`convert_from_path` was invoked (the Page Source was opened);
`materialize n` records that it returned a fully built in-memory list of
`n` page images; `extractCall p` records one `generate_content` invocation
for page `p` (1-based). -/
inductive Event where
  | sourceOpen
  | materialize (n : Nat)
  | extractCall (page : Nat)
deriving DecidableEq

/-- Result of one `process_pdf` run: the event trace, the diagnostic lines
printed, and the content of the destination artifact afterwards (`none`
when no file exists there). -/
structure RunResult where
  events : List Event
  logs : List String
  artifact : Option String
deriving DecidableEq

/-- Per-page section appended inside the loop (lines 106-108):
`"\n<!-- Page {page_num} -->\n"` followed by the page text and a newline. -/
def pageSection (page_num : Nat) (text : String) : String :=
  "\n<!-- Page " ++ toString page_num ++ " -->\n" ++ text ++ "\n"

/-- Header written when the artifact file is created (line 99):
`"<!-- Source: {pdf_name} -->\n\n"`. -/
def header (pdf_name : String) : String :=
  "<!-- Source: " ++ pdf_name ++ " -->\n\n"

/-- Loop of lines 101-110 over the materialized image list: `i` is the
0-based index of the first image of `imgs`; produces the extraction events
and, per page, the pair of the 1-based page number and the string obtained
from `process_page_vision`. -/
def processPages {Image : Type} (service : Image → Nat → CallResult) :
    Nat → List Image → List Event × List (Nat × String)
  | _, [] => ([], [])
  | i, img :: rest =>
    let page_num := i + 1
    let out := process_page_vision (service img) page_num
    let tail := processPages service (i + 1) rest
    (List.replicate out.calls (Event.extractCall page_num) ++ tail.1,
      (page_num, out.result) :: tail.2)

/-- Page blocks of a whole run: page numbers paired with the text appended
for each page, in processing order. -/
def pageBlocks {Image : Type} (service : Image → Nat → CallResult)
    (images : List Image) : List (Nat × String) :=
  (processPages service 0 images).2

/-- `process_pdf(pdf_path, output_file_path)` (lines 80-110). `existing`
is the content of the destination before the run (`none` when the file is
absent), `convert` the outcome of `convert_from_path` (an exception string
or the full list of page images), and `service img` the inference service
behaviour on image `img` indexed by attempt number. -/
def process_pdf {Image : Type} (existing : Option String) (pdf_name : String)
    (convert : Except String (List Image))
    (service : Image → Nat → CallResult) : RunResult :=
  match existing with
  | some content =>
    { events := [],
      logs := ["[SKIP] " ++ pdf_name ++ " (already exists)"],
      artifact := some content }
  | none =>
    match convert with
    | Except.error e =>
      { events := [Event.sourceOpen],
        logs := ["[PDF] Processing: " ++ pdf_name,
                 "[ERROR] Converting PDF to images: " ++ e],
        artifact := none }
    | Except.ok images =>
      { events := Event.sourceOpen :: Event.materialize images.length ::
          (processPages service 0 images).1,
        logs := ["[PDF] Processing: " ++ pdf_name],
        artifact := some (header pdf_name ++
          String.join ((pageBlocks service images).map fun b => pageSection b.1 b.2)) }

/-- `main` together with the module-level credential check (lines 17-21 and
112-127): exit code and diagnostics. A missing credential or a missing
input file exits with status 1 before any job runs; otherwise `process_pdf`
runs and `main` falls through, so the process exits with status 0. -/
def main_run {Image : Type} (apiKeyPresent : Bool) (inputExists : Bool)
    (existing : Option String) (pdf_name : String)
    (convert : Except String (List Image))
    (service : Image → Nat → CallResult) : Nat × RunResult :=
  if apiKeyPresent = false then
    (1, { events := [],
          logs := ["[ERROR] GEMINI_API_KEY or GOOGLE_API_KEY not found in environment."],
          artifact := existing })
  else if inputExists = false then
    (1, { events := [],
          logs := ["[ERROR] Input file not found"],
          artifact := existing })
  else
    (0, process_pdf existing pdf_name convert service)

/-- Streaming contract claimed by the specification: at no point does the
run hold all page images materialized simultaneously, i.e. the trace never
records a materialization of more than one page at once. -/
def streamingContract (r : RunResult) : Prop :=
  ∀ k, Event.materialize k ∈ r.events → k ≤ 1

/-- Matching a needle at the head of a list is equivalent to the needle
being a leading segment. -/
lemma startsWithList_iff (n : List Char) :
    ∀ h, startsWithList n h = true ↔ ∃ post, h = n ++ post := by
  induction n with
  | nil => intro h; simp [startsWithList]
  | cons c ns ih =>
    intro h
    cases h with
    | nil => simp [startsWithList]
    | cons d hs =>
      simp only [startsWithList, Bool.and_eq_true, beq_iff_eq, ih hs]
      constructor
      · rintro ⟨rfl, post, rfl⟩; exact ⟨post, rfl⟩
      · rintro ⟨post, hpost⟩
        simp only [List.cons_append, List.cons.injEq] at hpost
        exact ⟨hpost.1.symm, post, hpost.2⟩

/-- Executable substring search agrees with the declarative decomposition
of the haystack around the needle. -/
lemma hasSubList_iff (n : List Char) :
    ∀ h, hasSubList n h = true ↔ ∃ pre post, h = pre ++ n ++ post := by
  intro h
  induction h with
  | nil =>
    simp only [hasSubList, List.isEmpty_iff]
    constructor
    · rintro rfl; exact ⟨[], [], rfl⟩
    · rintro ⟨pre, post, hp⟩
      rcases List.append_eq_nil.mp hp.symm with ⟨h1, h2⟩
      exact (List.append_eq_nil.mp h1).2
  | cons c hs ih =>
    simp only [hasSubList, Bool.or_eq_true, startsWithList_iff, ih]
    constructor
    · rintro (⟨post, hp⟩ | ⟨pre, post, hp⟩)
      · exact ⟨[], post, by simpa using hp⟩
      · exact ⟨c :: pre, post, by simp [hp]⟩
    · rintro ⟨pre, post, hp⟩
      cases pre with
      | nil => left; exact ⟨post, by simpa using hp⟩
      | cons d pre2 =>
        right
        simp only [List.cons_append, List.cons.injEq] at hp
        exact ⟨pre2, post, hp.2⟩

/-- String-level substring search agrees with `SpecContains`. -/
lemma strContains_iff (hay needle : String) :
    strContains hay needle = true ↔ SpecContains hay needle := by
  simp [strContains, SpecContains, hasSubList_iff]

/-- Every call to `process_page_vision` returns either the text of the
first successful attempt (within the retry budget) or, when the final
attempt also raises, the fallback marker built from the final error. -/
lemma process_page_vision_result_cases (service : Nat → CallResult) (p : Nat) :
    (∃ n br t, n < max_retries ∧ service n = CallResult.ok br t ∧
      (process_page_vision service p).result = t) ∨
    (∃ e, service (max_retries - 1) = CallResult.err e ∧
      (process_page_vision service p).result = fallbackMarker p e) := by
  rcases h0 : service 0 with br0 | e0
  case ok t0 =>
    left
    exact ⟨0, br0, t0, by decide, h0,
      by simp [process_page_vision, max_retries, attemptsFrom, h0]⟩
  rcases h1 : service 1 with br1 | e1
  case ok t1 =>
    left
    exact ⟨1, br1, t1, by decide, h1,
      by simp [process_page_vision, max_retries, attemptsFrom, h0, h1]⟩
  rcases h2 : service 2 with br2 | e2
  case ok t2 =>
    left
    exact ⟨2, br2, t2, by decide, h2,
      by simp [process_page_vision, max_retries, attemptsFrom, h0, h1, h2]⟩
  right
  exact ⟨e2, h2, by simp [process_page_vision, max_retries, attemptsFrom, h0, h1, h2]⟩

/-- Events emitted by the page loop are extraction calls only. -/
lemma processPages_events_extract {Image : Type} (service : Image → Nat → CallResult) :
    ∀ (imgs : List Image) (i : Nat) (ev : Event), ev ∈ (processPages service i imgs).1 →
      ∃ p, ev = Event.extractCall p := by
  intro imgs
  induction imgs with
  | nil => intro i ev h; simp [processPages] at h
  | cons img rest ih =>
    intro i ev h
    simp only [processPages, List.mem_append, List.mem_replicate] at h
    rcases h with ⟨_, rfl⟩ | h
    · exact ⟨i + 1, rfl⟩
    · exact ih (i + 1) ev h

/-- The page loop never materializes a page collection of its own. -/
lemma processPages_no_materialize {Image : Type} (service : Image → Nat → CallResult)
    (imgs : List Image) (i : Nat) (k : Nat) :
    Event.materialize k ∉ (processPages service i imgs).1 := by
  intro h
  rcases processPages_events_extract service imgs i _ h with ⟨p, hp⟩
  exact Event.noConfusion hp

/-- Page numbers of the emitted blocks are consecutive starting at `i+1`. -/
lemma processPages_map_fst {Image : Type} (service : Image → Nat → CallResult) :
    ∀ (imgs : List Image) (i : Nat),
      ((processPages service i imgs).2).map Prod.fst = List.range' (i + 1) imgs.length := by
  intro imgs
  induction imgs with
  | nil => intro i; simp [processPages]
  | cons img rest ih =>
    intro i
    simp only [processPages, List.map_cons, List.length_cons, List.range'_succ _ _ 1, ih (i + 1)]

/-- Every emitted block's text is the outcome of `process_page_vision` on
one of the supplied page images. -/
lemma processPages_blocks_mem {Image : Type} (service : Image → Nat → CallResult) :
    ∀ (imgs : List Image) (i : Nat) (b : Nat × String), b ∈ (processPages service i imgs).2 →
      ∃ img, img ∈ imgs ∧ b.2 = (process_page_vision (service img) b.1).result := by
  intro imgs
  induction imgs with
  | nil => intro i b h; simp [processPages] at h
  | cons img rest ih =>
    intro i b h
    simp only [processPages, List.mem_cons] at h
    rcases h with rfl | h
    · exact ⟨img, List.mem_cons_self img rest, rfl⟩
    · rcases ih (i + 1) b h with ⟨img2, hmem, hres⟩
      exact ⟨img2, List.mem_cons_of_mem img hmem, hres⟩

/-- C1: when every attempt on a page fails with a non-rate-limit error,
`process_page_vision` invokes the extraction call exactly 3 times (never a
fourth) and returns the fallback marker built from the page index and the
final (third) error's description, instead of propagating any exception. -/
theorem retry_exhaustion_bound (service : Nat → CallResult) (es : Nat → String)
    (hfail : ∀ n, service n = CallResult.err (es n))
    (_hnr : ∀ n, isRateLimit (es n) = false) (p : Nat) :
    (process_page_vision service p).calls = 3 ∧
    (process_page_vision service p).isFallback = true ∧
    (process_page_vision service p).result = fallbackMarker p (es 2) := by
  simp [process_page_vision, max_retries, attemptsFrom, hfail 0, hfail 1, hfail 2]

/-- C1 witness: a service that always raises a generic error is called
exactly 3 times on page 4 and yields the fallback marker. -/
theorem retry_exhaustion_bound_witness :
    (process_page_vision (fun _ => CallResult.err "boom") 4).calls = 3 ∧
    (process_page_vision (fun _ => CallResult.err "boom") 4).isFallback = true ∧
    (process_page_vision (fun _ => CallResult.err "boom") 4).result =
      fallbackMarker 4 "boom" :=
  retry_exhaustion_bound (fun _ => CallResult.err "boom") (fun _ => "boom")
    (fun _ => rfl) (fun _ => rfl) 4

/-- C2: when the destination artifact already exists, the run emits no
events at all — the Page Source is never opened and the Extraction Client
never invoked — and the artifact bytes are unchanged; consequently, of two
successive runs on the same destination, the second performs no extraction
whenever the first performed any. -/
theorem idempotence_gate {Image : Type} (pdf_name : String)
    (convert : Except String (List Image))
    (service : Image → Nat → CallResult) (c : String) (existing : Option String) :
    ((process_pdf (some c) pdf_name convert service).events = [] ∧
     Event.sourceOpen ∉ (process_pdf (some c) pdf_name convert service).events ∧
     (∀ p, Event.extractCall p ∉ (process_pdf (some c) pdf_name convert service).events) ∧
     (process_pdf (some c) pdf_name convert service).artifact = some c) ∧
    ((∃ p, Event.extractCall p ∈ (process_pdf existing pdf_name convert service).events) →
      (process_pdf (process_pdf existing pdf_name convert service).artifact
        pdf_name convert service).events = []) := by
  refine ⟨⟨rfl, by simp [process_pdf], fun p => by simp [process_pdf], rfl⟩, ?_⟩
  rintro ⟨p, hp⟩
  cases existing with
  | some c2 => simp [process_pdf] at hp
  | none =>
    cases convert with
    | error e => simp [process_pdf] at hp
    | ok images => simp [process_pdf]

/-- C2 witness: with the destination pre-populated the run is a no-op, and
after a first run that extracted one page the repeat run emits no events. -/
theorem idempotence_gate_witness :
    (process_pdf (some "old") "doc" (Except.ok [()])
      (fun _ _ => CallResult.ok none "t")).events = [] ∧
    (process_pdf (some "old") "doc" (Except.ok [()])
      (fun _ _ => CallResult.ok none "t")).artifact = some "old" ∧
    (process_pdf (process_pdf (none : Option String) "doc" (Except.ok [()])
        (fun _ _ => CallResult.ok none "t")).artifact
      "doc" (Except.ok [()]) (fun _ _ => CallResult.ok none "t")).events = [] :=
  ⟨(idempotence_gate "doc" (Except.ok [()]) (fun _ _ => CallResult.ok none "t")
      "old" none).1.1,
   (idempotence_gate "doc" (Except.ok [()]) (fun _ _ => CallResult.ok none "t")
      "old" none).1.2.2.2,
   (idempotence_gate "doc" (Except.ok [()]) (fun _ _ => CallResult.ok none "t")
      "old" none).2
     ⟨1, by simp [process_pdf, processPages, process_page_vision, max_retries, attemptsFrom]⟩⟩

/-- C3: a rate-limited error always yields a 30-second delay, whatever the
attempt number, and in particular a rate-limited failure of the very first
attempt makes the first slept delay of the retry loop exactly 30. -/
theorem rate_limit_flat_delay (e : String) (h : isRateLimit e = true) :
    (∀ attempt, delayFor attempt e = 30) ∧
    (∀ (service : Nat → CallResult) (p : Nat), service 0 = CallResult.err e →
      ((process_page_vision service p).sleeps).head? = some 30) := by
  constructor
  · intro attempt; simp [delayFor, h]
  · intro service p hs
    simp [process_page_vision, max_retries, attemptsFrom, hs, delayFor, h]

/-- C3 witness: a 429 error gives a 30s delay on attempts 0 and 7, and the
first slept delay after a first-attempt 429 failure is 30s. -/
theorem rate_limit_flat_delay_witness :
    delayFor 0 "HTTP 429 quota" = 30 ∧ delayFor 7 "HTTP 429 quota" = 30 ∧
    ((process_page_vision (fun _ => CallResult.err "HTTP 429 quota") 1).sleeps).head? =
      some 30 :=
  ⟨(rate_limit_flat_delay "HTTP 429 quota" rfl).1 0,
   (rate_limit_flat_delay "HTTP 429 quota" rfl).1 7,
   (rate_limit_flat_delay "HTTP 429 quota" rfl).2
     (fun _ => CallResult.err "HTTP 429 quota") 1 rfl⟩

/-- C4: non-rate-limit failures back off linearly, `base_delay * (attempt + 1)`
with `base_delay = 5`; a page failing its first two attempts with generic
errors sleeps 5s then 10s and succeeds on the third call. -/
theorem linear_backoff_delays (service : Nat → CallResult) (e0 e1 t : String)
    (br : Option String) (p : Nat)
    (h0 : service 0 = CallResult.err e0) (h1 : service 1 = CallResult.err e1)
    (h2 : service 2 = CallResult.ok br t)
    (hr0 : isRateLimit e0 = false) (hr1 : isRateLimit e1 = false) :
    (process_page_vision service p).sleeps = [5, 10] ∧
    (process_page_vision service p).calls = 3 ∧
    (process_page_vision service p).result = t ∧
    ∀ attempt e, isRateLimit e = false → delayFor attempt e = base_delay * (attempt + 1) := by
  refine ⟨?_, ?_, ?_, fun attempt e he => by simp [delayFor, he]⟩ <;>
    simp [process_page_vision, max_retries, attemptsFrom, h0, h1, h2,
      delayFor, hr0, hr1, base_delay]

/-- C4 witness: two generic failures then a success sleep 5s and 10s, use 3
calls, and return the third attempt's text; `delayFor 1` of a generic error
is 10. -/
theorem linear_backoff_delays_witness :
    (process_page_vision
      (fun n => if n = 0 then CallResult.err "gen0"
        else if n = 1 then CallResult.err "gen1" else CallResult.ok none "text") 2).sleeps =
      [5, 10] ∧
    (process_page_vision
      (fun n => if n = 0 then CallResult.err "gen0"
        else if n = 1 then CallResult.err "gen1" else CallResult.ok none "text") 2).calls = 3 ∧
    (process_page_vision
      (fun n => if n = 0 then CallResult.err "gen0"
        else if n = 1 then CallResult.err "gen1" else CallResult.ok none "text") 2).result =
      "text" ∧
    delayFor 1 "gen1" = 10 :=
  ⟨(linear_backoff_delays _ "gen0" "gen1" "text" none 2 rfl rfl rfl rfl rfl).1,
   (linear_backoff_delays _ "gen0" "gen1" "text" none 2 rfl rfl rfl rfl rfl).2.1,
   (linear_backoff_delays _ "gen0" "gen1" "text" none 2 rfl rfl rfl rfl rfl).2.2.1,
   (linear_backoff_delays
      (fun n => if n = 0 then CallResult.err "gen0"
        else if n = 1 then CallResult.err "gen1" else CallResult.ok none "text")
      "gen0" "gen1" "text" none 2 rfl rfl rfl rfl rfl).2.2.2 1 "gen1" rfl⟩

/-- C5: a completed run on an absent destination writes the header
`<!-- Source: {name} -->` followed by a blank line and then, for each of
the N pages in order, the section `<!-- Page {i} -->` immediately followed
by the page's text; the page numbers are exactly `1, …, N` in strictly
increasing order, and every page's text is either text returned by the
service or the fallback marker for that page. -/
theorem artifact_format {Image : Type} (pdf_name : String) (images : List Image)
    (service : Image → Nat → CallResult) :
    (process_pdf none pdf_name (Except.ok images) service).artifact =
      some ("<!-- Source: " ++ pdf_name ++ " -->\n\n" ++
        String.join ((pageBlocks service images).map fun b => pageSection b.1 b.2)) ∧
    (pageBlocks service images).map Prod.fst = List.range' 1 images.length ∧
    List.Pairwise (· < ·) ((pageBlocks service images).map Prod.fst) ∧
    ∀ b ∈ pageBlocks service images, ∃ img, img ∈ images ∧
      ((∃ n br t, n < max_retries ∧ service img n = CallResult.ok br t ∧ b.2 = t) ∨
       (∃ e, service img (max_retries - 1) = CallResult.err e ∧
         b.2 = fallbackMarker b.1 e)) := by
  have hfst : (pageBlocks service images).map Prod.fst = List.range' 1 images.length :=
    processPages_map_fst service images 0
  refine ⟨rfl, hfst, ?_, ?_⟩
  · rw [hfst]; exact List.pairwise_lt_range' 1 images.length 1 (Nat.le_refl 1)
  · intro b hb
    rcases processPages_blocks_mem service images 0 b hb with ⟨img, hmem, hres⟩
    refine ⟨img, hmem, ?_⟩
    rcases process_page_vision_result_cases (service img) b.1 with
      ⟨n, br, t, hn, hcall, hr⟩ | ⟨e, hcall, hr⟩
    · exact Or.inl ⟨n, br, t, hn, hcall, hres.trans hr⟩
    · exact Or.inr ⟨e, hcall, hres.trans hr⟩

/-- C5 witness: a 2-page document yields the header plus sections for pages
1 and 2 in order, and page 1's block carries service-returned text. -/
theorem artifact_format_witness :
    (process_pdf none "doc" (Except.ok [(), ()])
      (fun _ _ => CallResult.ok none "t")).artifact =
      some ("<!-- Source: " ++ "doc" ++ " -->\n\n" ++
        String.join ((pageBlocks (fun _ _ => CallResult.ok none "t") [(), ()]).map
          fun b => pageSection b.1 b.2)) ∧
    (pageBlocks (fun (_ : Unit) (_ : Nat) => CallResult.ok none "t") [(), ()]).map
      Prod.fst = List.range' 1 2 ∧
    (∃ img, img ∈ [(), ()] ∧
      ((∃ n br t, n < max_retries ∧
          (fun (_ : Unit) (_ : Nat) => CallResult.ok none "t") img n = CallResult.ok br t ∧
          ((1 : Nat), "t").2 = t) ∨
       (∃ e, (fun (_ : Unit) (_ : Nat) => CallResult.ok none "t") img (max_retries - 1) =
          CallResult.err e ∧ ((1 : Nat), "t").2 = fallbackMarker ((1 : Nat), "t").1 e))) :=
  ⟨(artifact_format "doc" [(), ()] (fun _ _ => CallResult.ok none "t")).1,
   (artifact_format "doc" [(), ()] (fun _ _ => CallResult.ok none "t")).2.1,
   (artifact_format "doc" [(), ()] (fun _ _ => CallResult.ok none "t")).2.2.2 (1, "t")
     (by simp [pageBlocks, processPages, process_page_vision, max_retries, attemptsFrom])⟩

/-- C6: when the document-to-image conversion raises, the job aborts with
no artifact created and no extraction call made; a subsequent run on the
same destination therefore is not skipped and opens the Page Source again. -/
theorem decode_failure_aborts {Image : Type} (pdf_name e : String)
    (service : Image → Nat → CallResult) :
    (process_pdf (none : Option String) pdf_name
      (Except.error e : Except String (List Image)) service).artifact = none ∧
    (∀ p, Event.extractCall p ∉ (process_pdf (none : Option String) pdf_name
      (Except.error e : Except String (List Image)) service).events) ∧
    ∀ (convert2 : Except String (List Image)) (service2 : Image → Nat → CallResult),
      Event.sourceOpen ∈ (process_pdf
        (process_pdf (none : Option String) pdf_name
          (Except.error e : Except String (List Image)) service).artifact
        pdf_name convert2 service2).events := by
  refine ⟨rfl, fun p => by simp [process_pdf], fun convert2 service2 => ?_⟩
  cases convert2 with
  | error e2 => simp [process_pdf]
  | ok images => simp [process_pdf]

/-- C6 witness: a corrupt document leaves no artifact, page 1 is never
extracted, and a repeat run opens the Page Source. -/
theorem decode_failure_aborts_witness :
    (process_pdf (none : Option String) "doc"
      (Except.error "corrupt" : Except String (List Unit))
      (fun _ _ => CallResult.err "x")).artifact = none ∧
    Event.extractCall 1 ∉ (process_pdf (none : Option String) "doc"
      (Except.error "corrupt" : Except String (List Unit))
      (fun _ _ => CallResult.err "x")).events ∧
    Event.sourceOpen ∈ (process_pdf
      (process_pdf (none : Option String) "doc"
        (Except.error "corrupt" : Except String (List Unit))
        (fun _ _ => CallResult.err "x")).artifact
      "doc" (Except.ok [()]) (fun _ _ => CallResult.ok none "t")).events :=
  ⟨(decode_failure_aborts "doc" "corrupt" (fun _ _ => CallResult.err "x")).1,
   (decode_failure_aborts "doc" "corrupt" (fun _ _ => CallResult.err "x")).2.1 1,
   (decode_failure_aborts "doc" "corrupt" (fun _ _ => CallResult.err "x")).2.2
     (Except.ok [()]) (fun _ _ => CallResult.ok none "t")⟩

/-- C7 counterexample: with the credential present and the input file
present, a run whose document cannot be decoded still exits with status 0
(not nonzero as claimed) even though the decode diagnostic was printed. -/
theorem decode_failure_exit_zero :
    (main_run true true (none : Option String) "doc"
      (Except.error "corrupt" : Except String (List Unit))
      (fun _ _ => CallResult.err "x")).1 = 0 ∧
    "[ERROR] Converting PDF to images: corrupt" ∈
      (main_run true true (none : Option String) "doc"
        (Except.error "corrupt" : Except String (List Unit))
        (fun _ _ => CallResult.err "x")).2.logs :=
  ⟨rfl, by simp [main_run, process_pdf]⟩

/-- C7 amended: a missing credential and a missing input file each produce
a diagnostic and exit status 1; once both checks pass the process exits 0,
and in particular a decode failure prints its diagnostic but still exits 0. -/
theorem exit_code_policy {Image : Type} (apiKeyPresent inputExists : Bool)
    (existing : Option String) (pdf_name : String)
    (convert : Except String (List Image)) (service : Image → Nat → CallResult) :
    (apiKeyPresent = false →
      (main_run apiKeyPresent inputExists existing pdf_name convert service).1 = 1 ∧
      "[ERROR] GEMINI_API_KEY or GOOGLE_API_KEY not found in environment." ∈
        (main_run apiKeyPresent inputExists existing pdf_name convert service).2.logs) ∧
    (apiKeyPresent = true → inputExists = false →
      (main_run apiKeyPresent inputExists existing pdf_name convert service).1 = 1 ∧
      "[ERROR] Input file not found" ∈
        (main_run apiKeyPresent inputExists existing pdf_name convert service).2.logs) ∧
    (apiKeyPresent = true → inputExists = true →
      (main_run apiKeyPresent inputExists existing pdf_name convert service).1 = 0) ∧
    (∀ e, apiKeyPresent = true → inputExists = true → existing = none →
      convert = Except.error e →
      (main_run apiKeyPresent inputExists existing pdf_name convert service).1 = 0 ∧
      ("[ERROR] Converting PDF to images: " ++ e) ∈
        (main_run apiKeyPresent inputExists existing pdf_name convert service).2.logs) := by
  refine ⟨fun h => by simp [main_run, h], fun h1 h2 => by simp [main_run, h1, h2],
    fun h1 h2 => by simp [main_run, h1, h2], fun e h1 h2 h3 h4 => ?_⟩
  subst h1; subst h2; subst h3; subst h4
  exact ⟨rfl, by simp [main_run, process_pdf]⟩

/-- C7 amended witness: concrete runs showing exit 1 for a missing
credential, exit 1 for a missing input, exit 0 for a clean start, and exit
0 with the decode diagnostic for a corrupt document. -/
theorem exit_code_policy_witness :
    (main_run false true (none : Option String) "doc"
      (Except.ok [()] : Except String (List Unit))
      (fun _ _ => CallResult.ok none "t")).1 = 1 ∧
    (main_run true false (none : Option String) "doc"
      (Except.ok [()] : Except String (List Unit))
      (fun _ _ => CallResult.ok none "t")).1 = 1 ∧
    (main_run true true (none : Option String) "doc2"
      (Except.ok [()] : Except String (List Unit))
      (fun _ _ => CallResult.ok none "t")).1 = 0 ∧
    (main_run true true (none : Option String) "doc3"
      (Except.error "bad" : Except String (List Unit))
      (fun _ _ => CallResult.ok none "t")).1 = 0 ∧
    ("[ERROR] Converting PDF to images: " ++ "bad") ∈
      (main_run true true (none : Option String) "doc3"
        (Except.error "bad" : Except String (List Unit))
        (fun _ _ => CallResult.ok none "t")).2.logs :=
  ⟨((exit_code_policy false true none "doc" (Except.ok [()])
      (fun _ _ => CallResult.ok none "t")).1 rfl).1,
   ((exit_code_policy true false none "doc" (Except.ok [()])
      (fun _ _ => CallResult.ok none "t")).2.1 rfl rfl).1,
   (exit_code_policy true true none "doc2" (Except.ok [()])
      (fun _ _ => CallResult.ok none "t")).2.2.1 rfl rfl,
   ((exit_code_policy true true none "doc3" (Except.error "bad")
      (fun _ _ => CallResult.ok none "t")).2.2.2 "bad" rfl rfl rfl rfl).1,
   ((exit_code_policy true true none "doc3" (Except.error "bad")
      (fun _ _ => CallResult.ok none "t")).2.2.2 "bad" rfl rfl rfl rfl).2⟩

/-- C8: a service response carrying a content-block reason still returns
without retrying: exactly one call, the block warning is surfaced, the
returned (possibly empty) text is the page result, no sleep occurs and the
result is not the error fallback; an unblocked success surfaces no warning,
so the warning distinguishes the two. -/
theorem content_block_soft_warning (service : Nat → CallResult) (reason t : String)
    (p : Nat) (h : service 0 = CallResult.ok (some reason) t) :
    (process_page_vision service p).calls = 1 ∧
    (process_page_vision service p).warned = true ∧
    (process_page_vision service p).result = t ∧
    (process_page_vision service p).isFallback = false ∧
    (process_page_vision service p).sleeps = [] ∧
    ∀ (s2 : Nat → CallResult) (t2 : String), s2 0 = CallResult.ok none t2 →
      (process_page_vision s2 p).warned = false := by
  refine ⟨?_, ?_, ?_, ?_, ?_, fun s2 t2 h2 => ?_⟩ <;>
    simp [process_page_vision, max_retries, attemptsFrom, h, *]

/-- C8 witness: a blocked response with empty text is used as the result of
one single call with the warning raised, while a clean success is unwarned. -/
theorem content_block_soft_warning_witness :
    (process_page_vision (fun _ => CallResult.ok (some "SAFETY") "") 3).calls = 1 ∧
    (process_page_vision (fun _ => CallResult.ok (some "SAFETY") "") 3).warned = true ∧
    (process_page_vision (fun _ => CallResult.ok (some "SAFETY") "") 3).result = "" ∧
    (process_page_vision (fun _ => CallResult.ok (some "SAFETY") "") 3).isFallback = false ∧
    (process_page_vision (fun _ => CallResult.ok none "clean") 3).warned = false :=
  ⟨(content_block_soft_warning _ "SAFETY" "" 3 rfl).1,
   (content_block_soft_warning _ "SAFETY" "" 3 rfl).2.1,
   (content_block_soft_warning _ "SAFETY" "" 3 rfl).2.2.1,
   (content_block_soft_warning _ "SAFETY" "" 3 rfl).2.2.2.1,
   (content_block_soft_warning (fun _ => CallResult.ok (some "SAFETY") "") "SAFETY" "" 3
      rfl).2.2.2.2.2 (fun _ => CallResult.ok none "clean") "clean" rfl⟩

/-- C9 counterexample: on a 2-page document the run records that both page
images were materialized simultaneously by the Page Source call, violating
the claimed one-page-at-a-time streaming contract. -/
theorem streaming_contract_violated :
    ¬ streamingContract (process_pdf (none : Option String) "doc"
      (Except.ok [(), ()]) (fun _ _ => CallResult.ok none "t")) := by
  intro h
  have h2 := h 2 (by simp [process_pdf])
  omega

/-- C9 amended: the Page Source materializes the full list of page images
in a single up-front call — the trace starts with `materialize N` for an
N-page document — and the loop then consumes them one at a time without any
further materialization. -/
theorem pages_materialized_up_front {Image : Type} (pdf_name : String)
    (images : List Image) (service : Image → Nat → CallResult) :
    (process_pdf none pdf_name (Except.ok images) service).events =
      Event.sourceOpen :: Event.materialize images.length ::
        (processPages service 0 images).1 ∧
    ∀ k, Event.materialize k ∉ (processPages service 0 images).1 :=
  ⟨rfl, fun k => processPages_no_materialize service images 0 k⟩

/-- C9 amended witness: the concrete 2-page trace starts with a
materialization of both pages, and no later materialization happens. -/
theorem pages_materialized_up_front_witness :
    (process_pdf (none : Option String) "doc" (Except.ok [(), ()])
      (fun _ _ => CallResult.ok none "t")).events =
      Event.sourceOpen :: Event.materialize 2 ::
        (processPages (fun _ _ => CallResult.ok none "t") 0 [(), ()]).1 ∧
    Event.materialize 5 ∉
      (processPages (fun (_ : Unit) (_ : Nat) => CallResult.ok none "t") 0 [(), ()]).1 :=
  ⟨(pages_materialized_up_front "doc" [(), ()] (fun _ _ => CallResult.ok none "t")).1,
   (pages_materialized_up_front "doc" [(), ()] (fun _ _ => CallResult.ok none "t")).2 5⟩

/-- C10: an error is classified as rate-limited exactly when its string
form contains the substring 429 or the case-sensitive substring Resource
exhausted; a matching error takes the flat 30s delay and a non-matching one
the linear backoff, at every attempt number. -/
theorem rate_limit_classification (e : String) (attempt : Nat) :
    (isRateLimit e = true ↔ SpecContains e "429" ∨ SpecContains e "Resource exhausted") ∧
    (isRateLimit e = true → delayFor attempt e = 30) ∧
    (isRateLimit e = false → delayFor attempt e = base_delay * (attempt + 1)) := by
  refine ⟨?_, fun h => by simp [delayFor, h], fun h => by simp [delayFor, h]⟩
  simp [isRateLimit, ← strContains_iff]

/-- C10 witness: a string containing 429 is classified rate-limited with a
30s delay, and a plain error takes the linear delay at attempt 2. -/
theorem rate_limit_classification_witness :
    (isRateLimit "err 429" = true ↔
      SpecContains "err 429" "429" ∨ SpecContains "err 429" "Resource exhausted") ∧
    delayFor 2 "err 429" = 30 ∧
    delayFor 2 "plain failure" = base_delay * (2 + 1) :=
  ⟨(rate_limit_classification "err 429" 2).1,
   (rate_limit_classification "err 429" 2).2.1 rfl,
   (rate_limit_classification "plain failure" 2).2.2 rfl⟩

end MessagesOCR
